import Mathlib

/-!
Shallow embedding of the HelmRepository reconciler of this repository
(src/controllers/helmrepository_controller.go and
src/internal/predicates/helmrepository_type_predicate.go).

External collaborators (storage, cache, secret lookup, the chart repository
client, the patch helper) are represented by an `Env` record of functions,
mirroring the narrow interfaces the controller calls. Observable side effects
(storage writes, cache operations, patches, emitted events) are recorded in a
trace carried by the per-pass state.
-/

namespace SourceController

/-- An Artifact as recorded on the object status (api `Artifact`):
storage path, advertised URL, revision, checksum, digest, optional size. -/
structure Artifact where
  path : String
  url : String
  revision : String
  checksum : String
  digest : String
  size : Option Int
deriving DecidableEq

/-- A status condition: name, boolean status, reason and message. -/
structure Condition where
  type_ : String
  status : Bool
  reason : String
  message : String
deriving DecidableEq

/-- The HelmRepository spec fields the controller reads. -/
structure HelmRepositorySpec where
  url : String
  secretRefName : Option String
  passCredentials : Bool
  timeoutSeconds : Int
  suspend : Bool
  type_ : String
deriving DecidableEq

/-- The HelmRepository status fields the controller reads and writes. -/
structure HelmRepositoryStatus where
  observedGeneration : Int
  conditions : List Condition
  url : String
  artifact : Option Artifact
  lastHandledReconcileAt : String
deriving DecidableEq

/-- The object metadata the controller reads: generation, finalizers, whether
the deletion timestamp is set, and the value of the reconcile request
annotation (empty when absent, as `meta.ReconcileAnnotationValue` leaves it). -/
structure ObjectMeta where
  generation : Int
  finalizers : List String
  deletionTimestampSet : Bool
  reconcileRequestedAt : String
deriving DecidableEq

/-- A HelmRepository object. -/
structure HelmRepository where
  metadata : ObjectMeta
  spec : HelmRepositorySpec
  status : HelmRepositoryStatus
deriving DecidableEq

def HelmRepositoryTypeDefault : String := "default"

def HelmRepositoryTypeOCI : String := "oci"

def SourceFinalizer : String := "finalizers.fluxcd.io"

def FetchFailedCondition : String := "FetchFailed"

def StorageOperationFailedCondition : String := "StorageOperationFailed"

def ArtifactOutdatedCondition : String := "ArtifactOutdated"

def ArtifactInStorageCondition : String := "ArtifactInStorage"

def ReconcilingCondition : String := "Reconciling"

def AuthenticationFailedReason : String := "AuthenticationFailed"

def URLInvalidReason : String := "URLInvalid"

def FailedReason : String := "Failed"

def IndexationFailedReason : String := "IndexationFailed"

def DirCreationFailedReason : String := "DirectoryCreationFailed"

def ArchiveOperationFailedReason : String := "ArchiveOperationFailed"

def SucceededReason : String := "Succeeded"

def ProgressingReason : String := "Progressing"

def ArtifactUpToDateReason : String := "ArtifactUpToDate"

def CacheOperationFailedReason : String := "CacheOperationFailed"

def SymlinkUpdateFailedReason : String := "SymlinkUpdateFailed"

/-- `conditions.Get`: find a condition by name. -/
def getCondition (obj : HelmRepository) (t : String) : Option Condition :=
  obj.status.conditions.find? (fun c => c.type_ == t)

/-- `conditions.IsTrue`: whether a condition by that name exists with status
true. -/
def isTrueCondition (obj : HelmRepository) (t : String) : Bool :=
  match getCondition obj t with
  | some c => c.status
  | none => false

/-- Replace the condition with the same name, or append. -/
def setConditionList (conds : List Condition) (c : Condition) : List Condition :=
  if conds.any (fun x => x.type_ == c.type_) then
    conds.map (fun x => if x.type_ == c.type_ then c else x)
  else
    conds ++ [c]

/-- `conditions.MarkTrue` on the object. -/
def markTrue (obj : HelmRepository) (t reason message : String) : HelmRepository :=
  { obj with status := { obj.status with
      conditions := setConditionList obj.status.conditions ⟨t, true, reason, message⟩ } }

/-- `conditions.Delete` on the object. -/
def deleteCondition (obj : HelmRepository) (t : String) : HelmRepository :=
  { obj with status := { obj.status with
      conditions := obj.status.conditions.filter (fun c => c.type_ != t) } }

/-- `controllerutil.ContainsFinalizer` for the source finalizer. -/
def containsFinalizer (obj : HelmRepository) : Bool :=
  obj.metadata.finalizers.contains SourceFinalizer

/-- `controllerutil.AddFinalizer` for the source finalizer. -/
def addFinalizer (obj : HelmRepository) : HelmRepository :=
  { obj with metadata := { obj.metadata with
      finalizers := obj.metadata.finalizers ++ [SourceFinalizer] } }

/-- `controllerutil.RemoveFinalizer` for the source finalizer. -/
def removeFinalizer (obj : HelmRepository) : HelmRepository :=
  { obj with metadata := { obj.metadata with
      finalizers := obj.metadata.finalizers.filter (fun f => f != SourceFinalizer) } }

/-! ## Event filter predicates
(src/internal/predicates/helmrepository_type_predicate.go) -/

/-- A `client.Object` as the predicates see it: either a HelmRepository or
some other object kind (which every filter rejects). A nil object is the
`none` of the surrounding `Option`. -/
inductive ClientObject where
  | helmRepo (hr : HelmRepository)
  | other
deriving DecidableEq

structure CreateEvent where
  object : Option ClientObject

structure UpdateEvent where
  objectOld : Option ClientObject
  objectNew : Option ClientObject

structure DeleteEvent where
  object : Option ClientObject

structure GenericEvent where
  object : Option ClientObject

/-- `helmRepositoryTypeFilter`: true iff the object is a HelmRepository of
the given type; nil and foreign objects yield false. -/
def helmRepositoryTypeFilter (repositoryType : String) (o : Option ClientObject) : Bool :=
  match o with
  | none => false
  | some ClientObject.other => false
  | some (ClientObject.helmRepo hr) => hr.spec.type_ == repositoryType

structure HelmRepositoryTypePredicate where
  repositoryType : String

def HelmRepositoryTypePredicate.Create (h : HelmRepositoryTypePredicate) (e : CreateEvent) : Bool :=
  helmRepositoryTypeFilter h.repositoryType e.object

/-- `HelmRepositoryTypePredicate.Update` inspects only the new object. -/
def HelmRepositoryTypePredicate.Update (h : HelmRepositoryTypePredicate) (e : UpdateEvent) : Bool :=
  match e.objectNew with
  | none => false
  | some ClientObject.other => false
  | some (ClientObject.helmRepo newObj) => newObj.spec.type_ == h.repositoryType

def HelmRepositoryTypePredicate.Delete (h : HelmRepositoryTypePredicate) (e : DeleteEvent) : Bool :=
  helmRepositoryTypeFilter h.repositoryType e.object

def HelmRepositoryTypePredicate.Generic (h : HelmRepositoryTypePredicate) (e : GenericEvent) : Bool :=
  helmRepositoryTypeFilter h.repositoryType e.object

/-- `hasEmptyHelmRepositoryStatus`: all five status fields at their zero
value. -/
def hasEmptyHelmRepositoryStatus (obj : HelmRepository) : Bool :=
  obj.status.observedGeneration == 0 &&
  obj.status.conditions.isEmpty &&
  obj.status.url == "" &&
  obj.status.artifact.isNone &&
  obj.status.lastHandledReconcileAt == ""

/-- `HelmRepositoryOCIRequireMigration`: the object is a HelmRepository of
the OCI type and it carries the source finalizer or its status is
non-empty. -/
def HelmRepositoryOCIRequireMigration (o : Option ClientObject) : Bool :=
  match o with
  | none => false
  | some ClientObject.other => false
  | some (ClientObject.helmRepo hr) =>
    if hr.spec.type_ != HelmRepositoryTypeOCI then false
    else if containsFinalizer hr || !(hasEmptyHelmRepositoryStatus hr) then true
    else false

def HelmRepositoryOCIMigrationPredicate.Create (e : CreateEvent) : Bool :=
  HelmRepositoryOCIRequireMigration e.object

/-- `HelmRepositoryOCIMigrationPredicate.Update` inspects only the new
object. -/
def HelmRepositoryOCIMigrationPredicate.Update (e : UpdateEvent) : Bool :=
  HelmRepositoryOCIRequireMigration e.objectNew

def HelmRepositoryOCIMigrationPredicate.Delete (e : DeleteEvent) : Bool :=
  HelmRepositoryOCIRequireMigration e.object

/-- The migration predicate implements no `Generic` method, so the embedded
framework predicate base applies. Its documented baseline behavior is a fixed
pass-through: with no generic function installed the event is admitted. -/
def HelmRepositoryOCIMigrationPredicate.Generic (_ : GenericEvent) : Bool :=
  true

/-- The type gate of the event filter installed by
`SetupWithManagerAndOptions`: the disjunction of two type predicates, one for
the default type and one for the empty type. -/
def eventFilterTypeGate (o : Option ClientObject) : Bool :=
  helmRepositoryTypeFilter HelmRepositoryTypeDefault o || helmRepositoryTypeFilter "" o

/-! ## The reconcile result and error abstractions
(internal/reconcile of this repository; modelled from the spec where the
package itself is not among the sources) -/

/-- The abstracted reconcile result: empty (no requeue request), immediate
requeue, or success (periodic requeue). -/
inductive Result where
  | empty
  | requeue
  | success
deriving DecidableEq

/-- Modelled from the spec: `LowestRequeuingResult` of the internal reconcile
package (absent from the sources) folds two stage results into the one with
the most conservative revisit schedule; the empty result acts as an identity
and an immediate requeue comes before a periodic success requeue. -/
def LowestRequeuingResult (i j : Result) : Result :=
  match i, j with
  | Result.empty, _ => j
  | _, Result.empty => i
  | Result.requeue, _ => Result.requeue
  | _, Result.requeue => Result.requeue
  | Result.success, Result.success => Result.success

/-- A classified reconcile error: a recoverable event, a stalling
(permanent-until-edit) failure, or a raw patch failure. -/
inductive SErr where
  | event (reason message : String)
  | stalling (reason message : String)
  | patchError (message : String)
deriving DecidableEq

def SErr.reason : SErr → String
  | SErr.event r _ => r
  | SErr.stalling r _ => r
  | SErr.patchError _ => "PatchFailed"

def SErr.message : SErr → String
  | SErr.event _ m => m
  | SErr.stalling _ m => m
  | SErr.patchError m => m

/-! ## Collaborators and observable effects -/

/-- The ephemeral chart repository handle: remote URL, path of the cached
index file, whether the index is loaded in memory, and the digest of the
fetched index under a given algorithm name. -/
structure ChartRepository where
  url : String
  path : String
  indexPresent : Bool
  digestOf : String → String

def ChartRepository.empty : ChartRepository :=
  { url := "", path := "", indexPresent := false, digestOf := fun _ => "" }

def Artifact.empty : Artifact :=
  { path := "", url := "", revision := "", checksum := "", digest := "", size := none }

/-- One observable side effect of a reconcile pass. -/
inductive Effect where
  | removeAllCall
  | gcCall
  | mkdirCall (path : String)
  | lockCall (path : String)
  | copyAttempt (path : String)
  | storageWrite (path : String)
  | loadIndex
  | cacheSet (key : String)
  | cacheExtendTTL (key : String)
  | patchCall
  | emitEvent (etype reason message : String)
  | clearRepo
  | symlinkCall (path : String)
deriving DecidableEq

/-- A construction failure of the chart repository client: a URL parse error
or any other failure. -/
inductive NewRepoError where
  | urlError (message : String)
  | otherError (message : String)
deriving DecidableEq

/-- The external collaborators of the controller, as functions: secret
lookup, client option extraction, the chart repository client, the digest
library, the artifact storage, the index cache, and the status patcher. -/
structure Env where
  getSecret : String → Except String String
  clientOptionsFromSecret : String → Except String Unit
  tlsClientConfigFromSecret : String → String → Except String Unit
  newChartRepo : String → Except NewRepoError ChartRepository
  cacheIndex : ChartRepository → Except String ChartRepository
  loadFromPath : ChartRepository → Except String ChartRepository
  digestValid : String → Bool
  transformLegacy : String → String
  newArtifactFor : String → String → Artifact
  artifactExist : Artifact → Bool
  artifactURL : Artifact → String
  setHostname : String → String
  removeAll : Except String String
  storageGC : Artifact → Except String (List String)
  mkdirAll : Artifact → Option String
  lock : Artifact → Option String
  copyFromPath : Artifact → String → Except String Artifact
  symlink : Artifact → String × Option String
  cacheConfigured : Bool
  cacheSet : String → Option String
  patch : HelmRepository → Option String

/-- The algorithm component of a digest string, the part before the colon. -/
def digestAlgorithm (d : String) : String :=
  (d.splitOn ":").headD ""

/-- The encoded hex component of a digest string, the part after the colon. -/
def digestHex (d : String) : String :=
  ((d.splitOn ":").drop 1).headD ""

/-- The canonical digest algorithm of the internal digest package. -/
def canonicalAlgorithm : String := "sha256"

/-- `Artifact.HasRevision` of the api package: nil-safe comparison of the
revisions, tolerating the legacy revision form on both sides. -/
def hasRevision (env : Env) (a : Option Artifact) (rev : String) : Bool :=
  match a with
  | none => false
  | some a => env.transformLegacy a.revision == env.transformLegacy rev

/-- `Artifact.HasChecksum` of the api package: nil-safe checksum equality. -/
def hasChecksum (a : Option Artifact) (c : String) : Bool :=
  match a with
  | none => false
  | some a => a.checksum == c

/-- The mutable slots threaded through one reconcile pass: the object working
copy, the candidate artifact slot, the chart repository handle slot, and the
trace of observable effects (most recent first). -/
structure PassState where
  obj : HelmRepository
  artifact : Artifact
  chartRepo : ChartRepository
  trace : List Effect

/-- A sub-reconcile stage with the environment already applied. -/
abbrev Stage := PassState → PassState × Result × Option SErr

/-! ## garbageCollect and the storage stage -/

/-- Outcome of `garbageCollect`: the possibly cleaned object, the effects of
the collection, and its error. -/
structure GCResult where
  obj : HelmRepository
  events : List Effect
  err : Option SErr

/-- `garbageCollect`: full purge (remove all artifacts and wipe status) when
the object is under deletion or its type changed away from the default;
otherwise retention collection around the current artifact, if any. -/
def garbageCollect (env : Env) (obj : HelmRepository) : GCResult :=
  if obj.metadata.deletionTimestampSet
      || (obj.spec.type_ != "" && obj.spec.type_ != HelmRepositoryTypeDefault) then
    match env.removeAll with
    | Except.error e =>
      ⟨obj, [Effect.removeAllCall],
        some (SErr.event "GarbageCollectionFailed"
          ("garbage collection for deleted resource failed: " ++ e))⟩
    | Except.ok deleted =>
      let evs :=
        if deleted != "" then
          [Effect.emitEvent "Trace" "GarbageCollectionSucceeded"
              "garbage collected artifacts for deleted resource",
            Effect.removeAllCall]
        else [Effect.removeAllCall]
      ⟨{ obj with status := { obj.status with
            artifact := none, url := "", conditions := [] } }, evs, none⟩
  else
    match obj.status.artifact with
    | some a =>
      match env.storageGC a with
      | Except.error e =>
        ⟨obj, [Effect.gcCall],
          some (SErr.event "GarbageCollectionFailed"
            ("garbage collection of artifacts failed: " ++ e))⟩
      | Except.ok delFiles =>
        let evs :=
          if delFiles.length > 0 then
            [Effect.emitEvent "Trace" "GarbageCollectionSucceeded"
                "garbage collected artifacts",
              Effect.gcCall]
          else [Effect.gcCall]
        ⟨obj, evs, none⟩
    | none => ⟨obj, [], none⟩

/-- `reconcileStorage`: opportunistic garbage collection with its error
discarded, the existence check on the advertised artifact, the progressing
patch when no artifact is recorded, and the URL rewrite otherwise. -/
def reconcileStorage (env : Env) (st : PassState) : PassState × Result × Option SErr :=
  let g := garbageCollect env st.obj
  let st := { st with obj := g.obj, trace := g.events ++ st.trace }
  let checked :=
    match st.obj.status.artifact with
    | some a =>
      if !(env.artifactExist a) then
        (deleteCondition
          { st.obj with status := { st.obj.status with artifact := none, url := "" } }
          ArtifactInStorageCondition, true)
      else (st.obj, false)
    | none => (st.obj, false)
  let obj1 := checked.1
  let artifactMissing := checked.2
  match obj1.status.artifact with
  | none =>
    let msg :=
      if artifactMissing then "building artifact: disappeared from storage"
      else "building artifact"
    let obj2 :=
      deleteCondition (markTrue obj1 ReconcilingCondition ProgressingReason msg)
        ArtifactInStorageCondition
    let st := { st with obj := obj2, trace := Effect.patchCall :: st.trace }
    match env.patch obj2 with
    | some e => (st, Result.empty, some (SErr.patchError e))
    | none => (st, Result.success, none)
  | some a =>
    let a' := { a with url := env.artifactURL a }
    let obj2 := { obj1 with status := { obj1.status with
        artifact := some a', url := env.setHostname obj1.status.url } }
    ({ st with obj := obj2 }, Result.success, none)

/-! ## The source stage -/

/-- Chart repository construction and index fetch (middle of
`reconcileSource`): classify a URL parse failure and any other construction
failure as stalling, a fetch failure as a recoverable event. -/
def constructAndFetch (env : Env) (obj : HelmRepository) : Except SErr ChartRepository :=
  match env.newChartRepo obj.spec.url with
  | Except.error (NewRepoError.urlError m) =>
    Except.error (SErr.stalling URLInvalidReason ("invalid Helm repository URL: " ++ m))
  | Except.error (NewRepoError.otherError m) =>
    Except.error (SErr.stalling FailedReason ("failed to construct Helm client: " ++ m))
  | Except.ok repo =>
    match env.cacheIndex repo with
    | Except.error m =>
      Except.error (SErr.event FailedReason ("failed to fetch Helm repository index: " ++ m))
    | Except.ok cached => Except.ok cached

/-- The fetch phase of `reconcileSource` (secret resolution, client
construction, index download); every failure is classified and the caller
marks FetchFailed with it. -/
def fetchRepo (env : Env) (obj : HelmRepository) : Except SErr ChartRepository :=
  match obj.spec.secretRefName with
  | none => constructAndFetch env obj
  | some name =>
    match env.getSecret name with
    | Except.error m =>
      Except.error (SErr.event AuthenticationFailedReason ("failed to get secret: " ++ m))
    | Except.ok secret =>
      match env.clientOptionsFromSecret secret with
      | Except.error m =>
        Except.error (SErr.event AuthenticationFailedReason
          ("failed to configure Helm client with secret data: " ++ m))
      | Except.ok _ =>
        match env.tlsClientConfigFromSecret secret obj.spec.url with
        | Except.error m =>
          Except.error (SErr.event AuthenticationFailedReason
            ("failed to create TLS client config with secret data: " ++ m))
        | Except.ok _ => constructAndFetch env obj

/-- The digest the short-circuit compares against: the stored digest, or the
legacy checksum transformed when no digest is recorded. -/
def curDigestOf (env : Env) (cur : Artifact) : String :=
  if cur.digest != "" then cur.digest else env.transformLegacy cur.checksum

/-- The tail of `reconcileSource` once the short-circuit did not hit: index
validation, change detection against the recorded revision, canonical
revision calculation, progress marking, and the candidate artifact. -/
def sourceBuildArtifact (env : Env) (st : PassState) : PassState × Result × Option SErr :=
  match env.loadFromPath st.chartRepo with
  | Except.error m =>
    let e := SErr.event IndexationFailedReason
      ("failed to load Helm repository from index YAML: " ++ m)
    ({ st with
        obj := markTrue st.obj FetchFailedCondition IndexationFailedReason e.message
        trace := Effect.loadIndex :: st.trace }, Result.empty, some e)
  | Except.ok loaded =>
    let st := { st with chartRepo := loaded, trace := Effect.loadIndex :: st.trace }
    let obj := deleteCondition st.obj FetchFailedCondition
    let changed :=
      match obj.status.artifact with
      | some a =>
        let curRev := env.transformLegacy a.revision
        !(env.digestValid curRev) || curRev != st.chartRepo.digestOf (digestAlgorithm curRev)
      | none => false
    let revision := st.chartRepo.digestOf canonicalAlgorithm
    if !(env.digestValid revision) then
      let e := SErr.event IndexationFailedReason "failed to calculate revision"
      ({ st with obj := markTrue obj FetchFailedCondition IndexationFailedReason e.message },
        Result.empty, some e)
    else if obj.status.artifact.isNone || changed then
      let obj1 :=
        if obj.status.artifact.isSome then
          markTrue obj ArtifactOutdatedCondition "NewRevision"
            ("new index revision " ++ revision)
        else obj
      let obj2 := markTrue obj1 ReconcilingCondition ProgressingReason
        ("building artifact: new index revision " ++ revision)
      let st := { st with obj := obj2, trace := Effect.patchCall :: st.trace }
      match env.patch obj2 with
      | some m => (st, Result.empty, some (SErr.patchError m))
      | none =>
        ({ st with artifact :=
            env.newArtifactFor revision ("index-" ++ digestHex revision ++ ".yaml") },
          Result.success, none)
    else
      ({ st with
          obj := obj
          artifact :=
            env.newArtifactFor revision ("index-" ++ digestHex revision ++ ".yaml") },
        Result.success, none)

/-- `reconcileSource`: fetch the index, short-circuit when the fetched index
digest equals the stored artifact digest under the same algorithm, else
validate and build a candidate artifact. -/
def reconcileSource (env : Env) (st : PassState) : PassState × Result × Option SErr :=
  match fetchRepo env st.obj with
  | Except.error e =>
    ({ st with obj := markTrue st.obj FetchFailedCondition e.reason e.message },
      Result.empty, some e)
  | Except.ok repo =>
    let st := { st with chartRepo := repo }
    match st.obj.status.artifact with
    | some cur =>
      let curDig := curDigestOf env cur
      if env.digestValid curDig then
        let newDig := st.chartRepo.digestOf (digestAlgorithm curDig)
        if env.digestValid newDig && newDig == curDig then
          ({ st with
              artifact := cur
              obj := deleteCondition st.obj FetchFailedCondition }, Result.success, none)
        else sourceBuildArtifact env st
      else sourceBuildArtifact env st
    | none => sourceBuildArtifact env st

/-! ## The artifact stage -/

/-- The deferred block of `reconcileArtifact`: when the recorded artifact
matches the candidate revision, drop ArtifactOutdated and mark
ArtifactInStorage; unconditionally clear the temporary fetched-index
handle. -/
def artifactDefer (env : Env) (st : PassState) : PassState :=
  let obj :=
    if hasRevision env st.obj.status.artifact st.artifact.revision then
      markTrue (deleteCondition st.obj ArtifactOutdatedCondition)
        ArtifactInStorageCondition SucceededReason
        ("stored artifact: revision " ++ st.artifact.revision)
    else st.obj
  { st with
      obj := obj
      chartRepo := { st.chartRepo with path := "", indexPresent := false }
      trace := Effect.clearRepo :: st.trace }

/-- The bookkeeping of the early return of `reconcileArtifact` when the
candidate matches the recorded artifact: cache TTL extension (when a cache is
configured) and the up-to-date trace event. -/
def artifactUpToDateState (env : Env) (st : PassState) : PassState :=
  let st :=
    if env.cacheConfigured then
      { st with trace := Effect.cacheExtendTTL st.artifact.path :: st.trace }
    else st
  let upToDateEvent :=
    Effect.emitEvent "Trace" ArtifactUpToDateReason
      "artifact up-to-date with remote revision"
  { st with trace := upToDateEvent :: st.trace }

/-- The tail of `reconcileArtifact` after a successful copy into storage:
record the stored artifact on status, populate the cache, refresh the
symlink (updating the published URL only on a non-empty returned URL) and
clear StorageOperationFailed. -/
def artifactWriteState (env : Env) (st : PassState) (stored : Artifact) : PassState :=
  let st := { st with
      artifact := stored
      trace := Effect.storageWrite stored.path ::
        Effect.copyAttempt st.artifact.path :: st.trace }
  let st := { st with obj := { st.obj with
      status := { st.obj.status with artifact := some stored } } }
  let st :=
    if env.cacheConfigured && st.chartRepo.indexPresent then
      let st := { st with trace := Effect.cacheSet stored.path :: st.trace }
      match env.cacheSet stored.path with
      | some m =>
        let ev := Effect.emitEvent "Trace" CacheOperationFailedReason
          ("failed to cache index: " ++ m)
        { st with trace := ev :: st.trace }
      | none => st
    else st
  let linked := env.symlink stored
  let st := { st with trace := Effect.symlinkCall stored.path :: st.trace }
  let st :=
    match linked.2 with
    | some m =>
      let ev := Effect.emitEvent "Trace" SymlinkUpdateFailedReason
        ("failed to update status URL symlink: " ++ m)
      { st with trace := ev :: st.trace }
    | none => st
  let st :=
    if linked.1 != "" then
      { st with obj := { st.obj with
          status := { st.obj.status with url := linked.1 } } }
    else st
  { st with obj := deleteCondition st.obj StorageOperationFailedCondition }

/-- `reconcileArtifact`: return early (extending the cache TTL) when the
candidate matches the recorded artifact in revision and checksum; otherwise
make the directory, take the lock, copy the content into storage, record the
artifact on status, populate the cache, refresh the symlink. -/
def reconcileArtifact (env : Env) (st : PassState) : PassState × Result × Option SErr :=
  if hasRevision env st.obj.status.artifact st.artifact.revision
      && hasChecksum st.obj.status.artifact st.artifact.checksum then
    (artifactDefer env (artifactUpToDateState env st), Result.success, none)
  else
    match env.mkdirAll st.artifact with
    | some m =>
      let e := SErr.event DirCreationFailedReason
        ("failed to create artifact directory: " ++ m)
      let st := { st with
          obj := markTrue st.obj StorageOperationFailedCondition DirCreationFailedReason
            e.message
          trace := Effect.mkdirCall st.artifact.path :: st.trace }
      (artifactDefer env st, Result.empty, some e)
    | none =>
      let st := { st with trace := Effect.mkdirCall st.artifact.path :: st.trace }
      match env.lock st.artifact with
      | some m =>
        let e := SErr.event FailedReason ("failed to acquire lock for artifact: " ++ m)
        let st := { st with trace := Effect.lockCall st.artifact.path :: st.trace }
        (artifactDefer env st, Result.empty, some e)
      | none =>
        let st := { st with trace := Effect.lockCall st.artifact.path :: st.trace }
        match env.copyFromPath st.artifact st.chartRepo.path with
        | Except.error m =>
          let e := SErr.event ArchiveOperationFailedReason
            ("unable to save artifact to storage: " ++ m)
          let st := { st with
              obj := markTrue st.obj StorageOperationFailedCondition
                ArchiveOperationFailedReason e.message
              trace := Effect.copyAttempt st.artifact.path :: st.trace }
          (artifactDefer env st, Result.empty, some e)
        | Except.ok stored =>
          (artifactDefer env (artifactWriteState env st stored), Result.success, none)

/-! ## Deletion, the pipeline loop, notifications, and the entry point -/

/-- Outcome of `reconcileDelete`. -/
structure DeleteOut where
  obj : HelmRepository
  events : List Effect
  result : Result
  err : Option SErr

/-- `reconcileDelete`: purge all artifacts; on failure return the error (the
finalizer stays); on success remove the finalizer when the object is under
deletion. -/
def reconcileDelete (env : Env) (obj : HelmRepository) : DeleteOut :=
  let g := garbageCollect env obj
  match g.err with
  | some e => ⟨g.obj, g.events, Result.empty, some e⟩
  | none =>
    let obj' :=
      if g.obj.metadata.deletionTimestampSet then removeFinalizer g.obj else g.obj
    ⟨obj', g.events, Result.empty, none⟩

/-- The pipeline loop of `reconcile` with its running result accumulator:
immediate return on a requeue, fail-fast on an error with the pair of that
stage, otherwise fold the stage result into the accumulator. -/
def reconcileLoopAux (acc : Result) (stages : List Stage) (st : PassState) :
    PassState × Result × Option SErr :=
  match stages with
  | [] => (st, acc, none)
  | s :: rest =>
    match s st with
    | (st', r, e) =>
      if r == Result.requeue then (st', Result.requeue, none)
      else
        match e with
        | some err => (st', r, some err)
        | none => reconcileLoopAux (LowestRequeuingResult acc r) rest st'

/-- The conditions representing failure for the recovery notification. -/
def helmRepositoryFailConditions : List String :=
  [FetchFailedCondition, StorageOperationFailedCondition]

/-- Modelled from the spec: `FailureRecovery` of the internal reconcile
package (absent from the sources) holds when a previously-failing condition
of the given list has cleared between the old and the new object. -/
def FailureRecovery (oldObj newObj : HelmRepository) (failConditions : List String) : Bool :=
  failConditions.any (fun c => isTrueCondition oldObj c && !(isTrueCondition newObj c))

/-- The old artifact checksum `notify` compares with, empty when the old
object had no artifact. -/
def notifyOldChecksum (oldObj : HelmRepository) : String :=
  match oldObj.status.artifact with
  | some a => a.checksum
  | none => ""

/-- The message of both reconciliation notifications. -/
def notifyMessage (chartRepo : ChartRepository) : String :=
  "stored fetched index from " ++ chartRepo.url

/-- `notify`: after the pipeline, on a full success with an artifact present,
emit a NewArtifact event when the checksum changed, a Succeeded event when it
is unchanged but a failure condition recovered, and nothing otherwise. -/
def notify (oldObj newObj : HelmRepository) (chartRepo : ChartRepository)
    (res : Result) (resErr : Option SErr) : List Effect :=
  match resErr, res, newObj.status.artifact with
  | none, Result.success, some newArt =>
    if notifyOldChecksum oldObj != newArt.checksum then
      [Effect.emitEvent "Normal" "NewArtifact" (notifyMessage chartRepo)]
    else if FailureRecovery oldObj newObj helmRepositoryFailConditions then
      [Effect.emitEvent "Normal" SucceededReason (notifyMessage chartRepo)]
    else []
  | _, _, _ => []

/-- The pipeline run of `reconcile` once the progressing patches are done:
fresh slots, the loop, then the notification. -/
def runPipeline (stages : List Stage) (oldObj obj : HelmRepository)
    (trace : List Effect) : PassState × Result × Option SErr :=
  let st0 : PassState := ⟨obj, Artifact.empty, ChartRepository.empty, trace⟩
  match reconcileLoopAux Result.empty stages st0 with
  | (st, res, resErr) =>
    ({ st with trace := notify oldObj st.obj st.chartRepo res resErr ++ st.trace },
      res, resErr)

/-- `reconcile`: remember the old object, mark progressing, persist the
progressing status when the generation or the reconcile request token moved,
then run the stage pipeline and notify. -/
def reconcile (env : Env) (stages : List Stage) (obj : HelmRepository) :
    PassState × Result × Option SErr :=
  let oldObj := obj
  let obj := markTrue obj ReconcilingCondition ProgressingReason
    "reconciliation in progress"
  if obj.metadata.generation != obj.status.observedGeneration then
    let obj := markTrue obj ReconcilingCondition ProgressingReason
      "processing object: new generation"
    match env.patch obj with
    | some m =>
      (⟨obj, Artifact.empty, ChartRepository.empty, [Effect.patchCall]⟩,
        Result.empty, some (SErr.patchError m))
    | none => runPipeline stages oldObj obj [Effect.patchCall]
  else if obj.metadata.reconcileRequestedAt != obj.status.lastHandledReconcileAt then
    match env.patch obj with
    | some m =>
      (⟨obj, Artifact.empty, ChartRepository.empty, [Effect.patchCall]⟩,
        Result.empty, some (SErr.patchError m))
    | none => runPipeline stages oldObj obj [Effect.patchCall]
  else runPipeline stages oldObj obj []

/-- The three sub-reconcilers of the steady-state pipeline, in order. -/
def stagesOf (env : Env) : List Stage :=
  [reconcileStorage env, reconcileSource env, reconcileArtifact env]

/-- The entry sequence of `Reconcile` after the object fetch: add the
finalizer and requeue when absent; route to the deletion path on a deletion
timestamp or a type change away from the default; return with no stage run
when suspended; otherwise run the pipeline. -/
def Reconcile (env : Env) (obj : HelmRepository) : PassState × Result × Option SErr :=
  if !(containsFinalizer obj) then
    (⟨addFinalizer obj, Artifact.empty, ChartRepository.empty, []⟩, Result.requeue, none)
  else if obj.metadata.deletionTimestampSet
      || (obj.spec.type_ != "" && obj.spec.type_ != HelmRepositoryTypeDefault) then
    let d := reconcileDelete env obj
    (⟨d.obj, Artifact.empty, ChartRepository.empty, d.events⟩, d.result, d.err)
  else if obj.spec.suspend then
    (⟨obj, Artifact.empty, ChartRepository.empty, []⟩, Result.empty, none)
  else
    reconcile env (stagesOf env) obj

/-! ## Verification-side definitions -/

/-- Every stage of the list, run in order from the given state, returns
neither a requeue nor an error. -/
def stageOutcomesOk : List Stage → PassState → Bool
  | [], _ => true
  | s :: rest, st =>
    match s st with
    | (st', r, e) => r != Result.requeue && e.isNone && stageOutcomesOk rest st'

/-- The sequence of stage results along the run. -/
def stageResults : List Stage → PassState → List Result
  | [], _ => []
  | s :: rest, st =>
    match s st with
    | (st', r, _) => r :: stageResults rest st'

/-- Effects that write artifact content or its directories to storage. -/
def isWriteEffect : Effect → Bool
  | Effect.storageWrite _ => true
  | Effect.copyAttempt _ => true
  | Effect.mkdirCall _ => true
  | _ => false

/-- Effects populating the index cache. -/
def isCacheSetEffect : Effect → Bool
  | Effect.cacheSet _ => true
  | _ => false

/-- Index validation effects. -/
def isLoadIndexEffect : Effect → Bool
  | Effect.loadIndex => true
  | _ => false

/-! ## Concrete fixtures -/

/-- A chart repository handle whose fetched index digests to a fixed value
under every algorithm. -/
def repoA : ChartRepository :=
  { url := "http://example.com/repo"
    path := "/tmp/index.yaml"
    indexPresent := false
    digestOf := fun _ => "sha256:aa" }

/-- A stored artifact whose digest matches the fetched index of `repoA`. -/
def curArtifactA : Artifact :=
  { path := "helmrepository/ns/name/index-aa.yaml"
    url := "http://h/helmrepository/ns/name/index-aa.yaml"
    revision := "sha256:aa"
    checksum := "aa"
    digest := "sha256:aa"
    size := some 3 }

/-- A benign environment: every collaborator succeeds, no cache configured. -/
def envA : Env :=
  { getSecret := fun _ => Except.ok "secret"
    clientOptionsFromSecret := fun _ => Except.ok ()
    tlsClientConfigFromSecret := fun _ _ => Except.ok ()
    newChartRepo := fun _ => Except.ok repoA
    cacheIndex := fun r => Except.ok r
    loadFromPath := fun r => Except.ok { r with indexPresent := true }
    digestValid := fun d => d == "sha256:aa" || d == "sha256:bb"
    transformLegacy := fun s => s
    newArtifactFor := fun rev fn => { Artifact.empty with revision := rev, path := fn }
    artifactExist := fun _ => true
    artifactURL := fun a => a.url
    setHostname := fun u => u
    removeAll := Except.ok ""
    storageGC := fun _ => Except.ok []
    mkdirAll := fun _ => none
    lock := fun _ => none
    copyFromPath := fun a _ => Except.ok { a with checksum := "bb", digest := "sha256:bb" }
    symlink := fun a => (a.url, none)
    cacheConfigured := false
    cacheSet := fun _ => none
    patch := fun _ => none }

/-- A steady-state object holding `curArtifactA`. -/
def objA : HelmRepository :=
  { metadata :=
      { generation := 1
        finalizers := [SourceFinalizer]
        deletionTimestampSet := false
        reconcileRequestedAt := "" }
    spec :=
      { url := "http://example.com/repo"
        secretRefName := none
        passCredentials := false
        timeoutSeconds := 60
        suspend := false
        type_ := "default" }
    status :=
      { observedGeneration := 1
        conditions := []
        url := "http://h/helmrepository/ns/name/index-aa.yaml"
        artifact := some curArtifactA
        lastHandledReconcileAt := "" } }

/-- The pass state entering a stage for `objA`. -/
def stA : PassState := ⟨objA, Artifact.empty, ChartRepository.empty, []⟩

/-- `objA` with the suspend flag set. -/
def objSuspended : HelmRepository :=
  { objA with spec := { objA.spec with suspend := true } }

/-- `objA` under deletion. -/
def objDeleting : HelmRepository :=
  { objA with metadata := { objA.metadata with deletionTimestampSet := true } }

/-- An environment like `envA` whose purge always fails. -/
def envPurgeFail : Env :=
  { envA with removeAll := Except.error "disk gone" }

/-- An environment like `envA` whose symlink refresh always fails. -/
def envSymlinkFail : Env :=
  { envA with symlink := fun _ => ("", some "symlink denied") }

/-- The artifact `envA.copyFromPath` stores for the empty candidate slot. -/
def storedA : Artifact :=
  { Artifact.empty with checksum := "bb", digest := "sha256:bb" }

/-- `objA` after a pass that stored `storedA`. -/
def objB : HelmRepository :=
  { objA with status := { objA.status with artifact := some storedA } }

/-- `objA` with an empty type discriminant. -/
def objEmptyType : HelmRepository :=
  { objA with spec := { objA.spec with type_ := "" } }

/-- `objA` switched to the OCI type. -/
def objOCI : HelmRepository :=
  { objA with spec := { objA.spec with type_ := "oci" } }

/-! ## Helper lemmas -/

theorem find?_filter_ne (l : List Condition) (t : String) :
    (l.filter (fun c => c.type_ != t)).find? (fun c => c.type_ == t) = none := by
  rw [List.find?_eq_none]
  intro c hc
  have h := List.of_mem_filter hc
  simp only [bne_iff_ne, ne_eq] at h
  simp [h]

theorem getCondition_deleteCondition_self (obj : HelmRepository) (t : String) :
    getCondition (deleteCondition obj t) t = none := by
  simp only [getCondition, deleteCondition]
  exact find?_filter_ne obj.status.conditions t

@[simp] theorem markTrue_artifact (obj : HelmRepository) (t r m : String) :
    (markTrue obj t r m).status.artifact = obj.status.artifact := rfl

@[simp] theorem markTrue_url (obj : HelmRepository) (t r m : String) :
    (markTrue obj t r m).status.url = obj.status.url := rfl

@[simp] theorem markTrue_metadata (obj : HelmRepository) (t r m : String) :
    (markTrue obj t r m).metadata = obj.metadata := rfl

@[simp] theorem deleteCondition_artifact (obj : HelmRepository) (t : String) :
    (deleteCondition obj t).status.artifact = obj.status.artifact := rfl

@[simp] theorem deleteCondition_url (obj : HelmRepository) (t : String) :
    (deleteCondition obj t).status.url = obj.status.url := rfl

@[simp] theorem deleteCondition_metadata (obj : HelmRepository) (t : String) :
    (deleteCondition obj t).metadata = obj.metadata := rfl

@[simp] theorem artifactDefer_status_artifact (env : Env) (st : PassState) :
    (artifactDefer env st).obj.status.artifact = st.obj.status.artifact := by
  simp only [artifactDefer]
  split <;> simp

@[simp] theorem artifactDefer_status_url (env : Env) (st : PassState) :
    (artifactDefer env st).obj.status.url = st.obj.status.url := by
  simp only [artifactDefer]
  split <;> simp

@[simp] theorem artifactDefer_trace (env : Env) (st : PassState) :
    (artifactDefer env st).trace = Effect.clearRepo :: st.trace := rfl

@[simp] theorem artifactUpToDateState_obj (env : Env) (st : PassState) :
    (artifactUpToDateState env st).obj = st.obj := by
  by_cases hc : env.cacheConfigured = true <;> simp [artifactUpToDateState, hc]

@[simp] theorem artifactUpToDateState_artifact (env : Env) (st : PassState) :
    (artifactUpToDateState env st).artifact = st.artifact := by
  by_cases hc : env.cacheConfigured = true <;> simp [artifactUpToDateState, hc]

theorem artifactUpToDateState_trace (env : Env) (st : PassState) :
    (artifactUpToDateState env st).trace =
      Effect.emitEvent "Trace" ArtifactUpToDateReason
          "artifact up-to-date with remote revision" ::
        (if env.cacheConfigured then
          Effect.cacheExtendTTL st.artifact.path :: st.trace
        else st.trace) := by
  by_cases hc : env.cacheConfigured = true <;> simp [artifactUpToDateState, hc]

theorem reconcileArtifact_upToDate (env : Env) (st : PassState)
    (h : (hasRevision env st.obj.status.artifact st.artifact.revision &&
          hasChecksum st.obj.status.artifact st.artifact.checksum) = true) :
    reconcileArtifact env st =
      (artifactDefer env (artifactUpToDateState env st), Result.success, none) := by
  simp [reconcileArtifact, h]

theorem reconcileArtifact_mkdirErr (env : Env) (st : PassState) (m : String)
    (h : (hasRevision env st.obj.status.artifact st.artifact.revision &&
          hasChecksum st.obj.status.artifact st.artifact.checksum) = false)
    (hmk : env.mkdirAll st.artifact = some m) :
    reconcileArtifact env st =
      (artifactDefer env { st with
          obj := markTrue st.obj StorageOperationFailedCondition DirCreationFailedReason
            ("failed to create artifact directory: " ++ m)
          trace := Effect.mkdirCall st.artifact.path :: st.trace },
        Result.empty,
        some (SErr.event DirCreationFailedReason
          ("failed to create artifact directory: " ++ m))) := by
  simp [reconcileArtifact, h, hmk, SErr.message]

theorem reconcileArtifact_lockErr (env : Env) (st : PassState) (m : String)
    (h : (hasRevision env st.obj.status.artifact st.artifact.revision &&
          hasChecksum st.obj.status.artifact st.artifact.checksum) = false)
    (hmk : env.mkdirAll st.artifact = none)
    (hlk : env.lock st.artifact = some m) :
    reconcileArtifact env st =
      (artifactDefer env { st with
          trace := Effect.lockCall st.artifact.path ::
            Effect.mkdirCall st.artifact.path :: st.trace },
        Result.empty,
        some (SErr.event FailedReason ("failed to acquire lock for artifact: " ++ m))) := by
  simp [reconcileArtifact, h, hmk, hlk]

theorem reconcileArtifact_copyErr (env : Env) (st : PassState) (m : String)
    (h : (hasRevision env st.obj.status.artifact st.artifact.revision &&
          hasChecksum st.obj.status.artifact st.artifact.checksum) = false)
    (hmk : env.mkdirAll st.artifact = none)
    (hlk : env.lock st.artifact = none)
    (hcp : env.copyFromPath st.artifact st.chartRepo.path = Except.error m) :
    reconcileArtifact env st =
      (artifactDefer env { st with
          obj := markTrue st.obj StorageOperationFailedCondition
            ArchiveOperationFailedReason
            ("unable to save artifact to storage: " ++ m)
          trace := Effect.copyAttempt st.artifact.path ::
            Effect.lockCall st.artifact.path ::
            Effect.mkdirCall st.artifact.path :: st.trace },
        Result.empty,
        some (SErr.event ArchiveOperationFailedReason
          ("unable to save artifact to storage: " ++ m))) := by
  simp [reconcileArtifact, h, hmk, hlk, hcp, SErr.message]

theorem reconcileArtifact_writeOk (env : Env) (st : PassState) (stored : Artifact)
    (h : (hasRevision env st.obj.status.artifact st.artifact.revision &&
          hasChecksum st.obj.status.artifact st.artifact.checksum) = false)
    (hmk : env.mkdirAll st.artifact = none)
    (hlk : env.lock st.artifact = none)
    (hcp : env.copyFromPath st.artifact st.chartRepo.path = Except.ok stored) :
    reconcileArtifact env st =
      (artifactDefer env (artifactWriteState env
          { st with trace := Effect.lockCall st.artifact.path ::
              Effect.mkdirCall st.artifact.path :: st.trace } stored),
        Result.success, none) := by
  simp [reconcileArtifact, h, hmk, hlk, hcp]

theorem artifactWriteState_status_artifact (env : Env) (st : PassState)
    (stored : Artifact) :
    (artifactWriteState env st stored).obj.status.artifact = some stored := by
  by_cases hc : (env.cacheConfigured && st.chartRepo.indexPresent) = true <;>
    cases hcs : env.cacheSet stored.path <;>
    cases hsym : (env.symlink stored).2 <;>
    by_cases hurl : ((env.symlink stored).1 != "") = true <;>
    simp [artifactWriteState, hc, hcs, hsym, hurl]

theorem artifactWriteState_status_url (env : Env) (st : PassState)
    (stored : Artifact) :
    (artifactWriteState env st stored).obj.status.url =
      (if (env.symlink stored).1 != "" then (env.symlink stored).1
       else st.obj.status.url) := by
  by_cases hc : (env.cacheConfigured && st.chartRepo.indexPresent) = true <;>
    cases hcs : env.cacheSet stored.path <;>
    cases hsym : (env.symlink stored).2 <;>
    by_cases hurl : ((env.symlink stored).1 != "") = true <;>
    simp [artifactWriteState, hc, hcs, hsym, hurl]

theorem requireMigration_eq (hr : HelmRepository) :
    HelmRepositoryOCIRequireMigration (some (ClientObject.helmRepo hr)) =
      (hr.spec.type_ == HelmRepositoryTypeOCI &&
        (containsFinalizer hr || !(hasEmptyHelmRepositoryStatus hr))) := by
  simp only [HelmRepositoryOCIRequireMigration]
  by_cases h : hr.spec.type_ = HelmRepositoryTypeOCI
  · simp [h]
  · simp [h]

/-! ## Claim theorems -/

/-- C5: the migration predicate fires on an object exactly when its type
discriminant is the OCI type and it either carries the source finalizer or
has a non-empty status, where an empty status requires all of: zero observed
generation, no conditions, empty published URL, nil artifact reference and
empty last-handled-reconcile token; the Create, Update and Delete methods all
reduce to this test, Update on the new object only. -/
theorem migrationPredicate_spec (hr : HelmRepository) (old : Option ClientObject) :
    (HelmRepositoryOCIRequireMigration (some (ClientObject.helmRepo hr)) = true ↔
      (hr.spec.type_ = HelmRepositoryTypeOCI ∧
        (SourceFinalizer ∈ hr.metadata.finalizers ∨
          ¬(hr.status.observedGeneration = 0 ∧ hr.status.conditions = [] ∧
            hr.status.url = "" ∧ hr.status.artifact = none ∧
            hr.status.lastHandledReconcileAt = "")))) ∧
    (HelmRepositoryOCIMigrationPredicate.Create ⟨some (ClientObject.helmRepo hr)⟩ =
      HelmRepositoryOCIRequireMigration (some (ClientObject.helmRepo hr))) ∧
    (HelmRepositoryOCIMigrationPredicate.Update ⟨old, some (ClientObject.helmRepo hr)⟩ =
      HelmRepositoryOCIRequireMigration (some (ClientObject.helmRepo hr))) ∧
    (HelmRepositoryOCIMigrationPredicate.Delete ⟨some (ClientObject.helmRepo hr)⟩ =
      HelmRepositoryOCIRequireMigration (some (ClientObject.helmRepo hr))) := by
  refine ⟨?_, rfl, rfl, rfl⟩
  rw [requireMigration_eq]
  simp [containsFinalizer, hasEmptyHelmRepositoryStatus, List.isEmpty_iff,
    Option.isNone_iff_eq_none, Option.isSome_iff_ne_none, and_assoc]
  tauto

/-- C10: the migration predicate implements Create, Update and Delete, each
requiring the migration condition, while Generic falls through to the
embedded framework default, a fixed pass-through, so every Generic event is
admitted regardless of the object (even a nil one, on which the migration
condition is false). -/
theorem migrationPredicate_generic_passthrough (g : GenericEvent) (c : CreateEvent)
    (u : UpdateEvent) (d : DeleteEvent) :
    HelmRepositoryOCIMigrationPredicate.Generic g = true ∧
    HelmRepositoryOCIMigrationPredicate.Create c = HelmRepositoryOCIRequireMigration c.object ∧
    HelmRepositoryOCIMigrationPredicate.Update u =
      HelmRepositoryOCIRequireMigration u.objectNew ∧
    HelmRepositoryOCIMigrationPredicate.Delete d = HelmRepositoryOCIRequireMigration d.object ∧
    HelmRepositoryOCIRequireMigration none = false :=
  ⟨rfl, rfl, rfl, rfl, rfl⟩

/-- C9: an empty type discriminant is treated as the supported default at the
public interface: the event filter type gate admits exactly the
HelmRepository objects of the default or empty type; with an empty type the
orchestrator routes to the purge path only on a deletion timestamp (with the
finalizer present and no suspension it runs the pipeline); and garbage
collection takes the retention branch, leaving the object untouched and
never invoking the full purge. -/
theorem emptyType_treated_as_default (o : Option ClientObject) (hr : HelmRepository)
    (env : Env) :
    (eventFilterTypeGate o = true ↔
      (∃ h, o = some (ClientObject.helmRepo h) ∧
        (h.spec.type_ = HelmRepositoryTypeDefault ∨ h.spec.type_ = ""))) ∧
    (hr.spec.type_ = "" → hr.metadata.deletionTimestampSet = false →
      containsFinalizer hr = true → hr.spec.suspend = false →
      Reconcile env hr = reconcile env (stagesOf env) hr) ∧
    (hr.spec.type_ = "" → hr.metadata.deletionTimestampSet = false →
      (garbageCollect env hr).obj = hr ∧
      Effect.removeAllCall ∉ (garbageCollect env hr).events) := by
  refine ⟨?_, ?_, ?_⟩
  · cases o with
    | none => simp [eventFilterTypeGate, helmRepositoryTypeFilter]
    | some co =>
      cases co with
      | other => simp [eventFilterTypeGate, helmRepositoryTypeFilter]
      | helmRepo h => simp [eventFilterTypeGate, helmRepositoryTypeFilter]
  · intro ht hd hf hs
    simp [Reconcile, hf, hd, ht, hs]
  · intro ht hd
    simp only [garbageCollect, ht, hd]
    cases ha : hr.status.artifact with
    | none => simp
    | some a =>
      cases hg : env.storageGC a with
      | error e => simp [hg]
      | ok delFiles =>
        by_cases hl : 0 < delFiles.length
        · simp [hg, hl]
        · simp [hg, hl]

/-- C7: after the pipeline, a NewArtifact notification is emitted exactly on
a successful pass with an artifact whose checksum differs from the old one; a
Succeeded (recovery) notification when the checksum is unchanged but a
previously-failing condition cleared; and nothing on a no-op pass, including
whenever the result is not success, the error is non-nil, or no artifact
exists. -/
theorem notify_spec (oldObj newObj : HelmRepository) (chartRepo : ChartRepository)
    (res : Result) (resErr : Option SErr) :
    ((resErr ≠ none ∨ res ≠ Result.success ∨ newObj.status.artifact = none) →
      notify oldObj newObj chartRepo res resErr = []) ∧
    (∀ a, resErr = none → res = Result.success → newObj.status.artifact = some a →
      ((notifyOldChecksum oldObj ≠ a.checksum →
        notify oldObj newObj chartRepo res resErr =
          [Effect.emitEvent "Normal" "NewArtifact" (notifyMessage chartRepo)]) ∧
      (notifyOldChecksum oldObj = a.checksum →
        FailureRecovery oldObj newObj helmRepositoryFailConditions = true →
        notify oldObj newObj chartRepo res resErr =
          [Effect.emitEvent "Normal" SucceededReason (notifyMessage chartRepo)]) ∧
      (notifyOldChecksum oldObj = a.checksum →
        FailureRecovery oldObj newObj helmRepositoryFailConditions = false →
        notify oldObj newObj chartRepo res resErr = []))) := by
  constructor
  · intro h
    unfold notify
    split
    · rcases h with h | h | h <;> simp_all
    · rfl
  · intro a h1 h2 h3
    subst h1
    subst h2
    refine ⟨?_, ?_, ?_⟩
    · intro hne
      simp [notify, h3, hne]
    · intro heq hrec
      simp [notify, h3, heq, hrec]
    · intro heq hrec
      simp [notify, h3, heq, hrec]

/-- C3: the pipeline loop returns Requeue with no error the moment a stage
returns Requeue, leaving the state as that stage left it and never running a
later stage; it returns the pair of result and error of the first stage that
fails, likewise stopping; and when no stage requeues or fails, its result is
the fold of the stage results under the lowest-requeuing ordering, with no
error. -/
theorem pipeline_loop_spec :
    (∀ (s : Stage) (rest : List Stage) (st st' : PassState) (e : Option SErr)
      (acc : Result),
      s st = (st', Result.requeue, e) →
      reconcileLoopAux acc (s :: rest) st = (st', Result.requeue, none)) ∧
    (∀ (s : Stage) (rest : List Stage) (st st' : PassState) (r : Result) (err : SErr)
      (acc : Result),
      s st = (st', r, some err) → r ≠ Result.requeue →
      reconcileLoopAux acc (s :: rest) st = (st', r, some err)) ∧
    (∀ (stages : List Stage) (st : PassState) (acc : Result),
      stageOutcomesOk stages st = true →
      (reconcileLoopAux acc stages st).2.1 =
        (stageResults stages st).foldl LowestRequeuingResult acc ∧
      (reconcileLoopAux acc stages st).2.2 = none) := by
  refine ⟨?_, ?_, ?_⟩
  · intro s rest st st' e acc h
    simp [reconcileLoopAux, h]
  · intro s rest st st' r err acc h hr
    simp [reconcileLoopAux, h, hr]
  · intro stages
    induction stages with
    | nil => intro st acc _; simp [reconcileLoopAux, stageResults]
    | cons s rest ih =>
      intro st acc h
      rcases hss : s st with ⟨st', r, e⟩
      rw [stageOutcomesOk, hss] at h
      simp only [Bool.and_eq_true, bne_iff_ne, ne_eq, Option.isNone_iff_eq_none] at h
      obtain ⟨⟨hr, he⟩, hok⟩ := h
      subst he
      have hrb : (r == Result.requeue) = false := by simpa using hr
      rw [reconcileLoopAux, hss]
      simp only [hrb, Bool.false_eq_true, if_false, stageResults, hss, List.foldl_cons]
      exact ih st' (LowestRequeuingResult acc r) hok

/-- C4: garbage collection errors are swallowed at the start of the storage
stage (whatever the collection outcome, the stage only fails on a patch, so
with a working patcher it returns success with no error), while on the
deletion path a purge error is returned and the finalizer is retained; only a
successful purge with the deletion timestamp set removes the finalizer, with
the artifact reference, the published URL and all conditions cleared; without
a deletion timestamp the finalizer is never removed. -/
theorem gc_swallowed_steady_propagated_on_delete (env : Env) (st : PassState)
    (obj : HelmRepository) :
    ((∀ o, env.patch o = none) →
      (reconcileStorage env st).2.1 = Result.success ∧
      (reconcileStorage env st).2.2 = none) ∧
    (obj.metadata.deletionTimestampSet = true →
      ((∀ m, env.removeAll = Except.error m →
        (reconcileDelete env obj).err ≠ none ∧
        (reconcileDelete env obj).obj = obj) ∧
      (∀ s, env.removeAll = Except.ok s →
        (reconcileDelete env obj).err = none ∧
        (reconcileDelete env obj).obj.metadata.finalizers =
          obj.metadata.finalizers.filter (fun f => f != SourceFinalizer) ∧
        (reconcileDelete env obj).obj.status.artifact = none ∧
        (reconcileDelete env obj).obj.status.url = "" ∧
        (reconcileDelete env obj).obj.status.conditions = []))) ∧
    (obj.metadata.deletionTimestampSet = false →
      (reconcileDelete env obj).obj.metadata.finalizers = obj.metadata.finalizers) := by
  refine ⟨?_, ?_, ?_⟩
  · intro hp
    simp only [reconcileStorage]
    split <;> simp [hp]
  · intro hd
    constructor
    · intro m hra
      simp [reconcileDelete, garbageCollect, hd, hra]
    · intro s hra
      simp [reconcileDelete, garbageCollect, hd, hra, removeFinalizer]
  · intro hd
    simp only [reconcileDelete, garbageCollect, hd]
    by_cases hty : (obj.spec.type_ != "" && obj.spec.type_ != HelmRepositoryTypeDefault) = true
    · simp only [hty]
      cases hra : env.removeAll with
      | error m => simp [hra]
      | ok s => simp [hra, hd]
    · simp only [Bool.not_eq_true] at hty
      simp only [hty]
      cases ha : obj.status.artifact with
      | none => simp [ha, hd]
      | some a =>
        cases hg : env.storageGC a with
        | error m => simp [ha, hg]
        | ok delFiles =>
          by_cases hl : 0 < delFiles.length
          · simp [ha, hg, hl, hd]
          · simp [ha, hg, hl, hd]

/-- C6 counterexample: a suspended object with the finalizer, no deletion
timestamp and the default type makes the pass return the empty result, not
the success result the claim states. -/
theorem suspend_counterexample :
    (Reconcile envA objSuspended).2.1 = Result.empty ∧
    Result.empty ≠ Result.success := by
  constructor
  · rfl
  · decide

/-- C6 (amended): for a suspended object with the tracking finalizer, no
deletion timestamp and a type not changed away from the default, the pass
returns the empty result (not the success result) with no error, runs no
stage, records no effect and leaves the object untouched. -/
theorem suspend_returns_empty_result (env : Env) (obj : HelmRepository)
    (hfin : containsFinalizer obj = true)
    (hdel : obj.metadata.deletionTimestampSet = false)
    (htype : obj.spec.type_ = "" ∨ obj.spec.type_ = HelmRepositoryTypeDefault)
    (hsus : obj.spec.suspend = true) :
    Reconcile env obj =
      (⟨obj, Artifact.empty, ChartRepository.empty, []⟩, Result.empty, none) := by
  have hty : (obj.spec.type_ != "" && obj.spec.type_ != HelmRepositoryTypeDefault)
      = false := by
    rcases htype with h | h <;> simp [h]
  simp [Reconcile, hfin, hdel, hty, hsus]

/-- C6 witness: the amended claim at the concrete suspended object. -/
theorem suspend_returns_empty_result_witness :
    Reconcile envA objSuspended =
      (⟨objSuspended, Artifact.empty, ChartRepository.empty, []⟩,
        Result.empty, none) :=
  suspend_returns_empty_result envA objSuspended rfl rfl
    (Or.inr rfl) rfl

/-- C2: whenever the artifact stage fails (directory creation, lock
acquisition or the copy into storage), the object's status artifact
reference is exactly what it was before the stage ran; and whenever the
stage changes the reference, the copy into storage returned success and the
reference is the artifact the copy stored. -/
theorem artifact_ref_changes_only_after_copy (env : Env) (st : PassState) :
    (∀ st' r e, reconcileArtifact env st = (st', r, some e) →
      st'.obj.status.artifact = st.obj.status.artifact) ∧
    (∀ st' r e, reconcileArtifact env st = (st', r, e) →
      st'.obj.status.artifact ≠ st.obj.status.artifact →
      ∃ stored, env.copyFromPath st.artifact st.chartRepo.path = Except.ok stored ∧
        e = none ∧ r = Result.success ∧ st'.obj.status.artifact = some stored) := by
  by_cases hup : (hasRevision env st.obj.status.artifact st.artifact.revision &&
      hasChecksum st.obj.status.artifact st.artifact.checksum) = true
  · rw [reconcileArtifact_upToDate env st hup]
    constructor
    · intro st' r e h
      exact absurd (congrArg (fun p => p.2.2) h) (by simp)
    · intro st' r e h hne
      have h1 := congrArg (fun p => p.1.obj.status.artifact) h
      simp only [artifactDefer_status_artifact] at h1
      exfalso
      apply hne
      rw [← h1]
      by_cases hc : env.cacheConfigured = true <;>
        simp [artifactUpToDateState, hc]
  · have hup' : (hasRevision env st.obj.status.artifact st.artifact.revision &&
        hasChecksum st.obj.status.artifact st.artifact.checksum) = false := by
      simpa using hup
    cases hmk : env.mkdirAll st.artifact with
    | some m =>
      rw [reconcileArtifact_mkdirErr env st m hup' hmk]
      constructor
      · intro st' r e h
        have h1 := congrArg (fun p => p.1.obj.status.artifact) h
        simpa using h1.symm
      · intro st' r e h hne
        have h1 := congrArg (fun p => p.1.obj.status.artifact) h
        simp at h1
        exact absurd h1.symm hne
    | none =>
      cases hlk : env.lock st.artifact with
      | some m =>
        rw [reconcileArtifact_lockErr env st m hup' hmk hlk]
        constructor
        · intro st' r e h
          have h1 := congrArg (fun p => p.1.obj.status.artifact) h
          simpa using h1.symm
        · intro st' r e h hne
          have h1 := congrArg (fun p => p.1.obj.status.artifact) h
          simp at h1
          exact absurd h1.symm hne
      | none =>
        cases hcp : env.copyFromPath st.artifact st.chartRepo.path with
        | error m =>
          rw [reconcileArtifact_copyErr env st m hup' hmk hlk hcp]
          constructor
          · intro st' r e h
            have h1 := congrArg (fun p => p.1.obj.status.artifact) h
            simpa using h1.symm
          · intro st' r e h hne
            have h1 := congrArg (fun p => p.1.obj.status.artifact) h
            simp at h1
            exact absurd h1.symm hne
        | ok stored =>
          rw [reconcileArtifact_writeOk env st stored hup' hmk hlk hcp]
          constructor
          · intro st' r e h
            exact absurd (congrArg (fun p => p.2.2) h) (by simp)
          · intro st' r e h _
            refine ⟨stored, rfl, ?_, ?_, ?_⟩
            · exact (congrArg (fun p => p.2.2) h).symm
            · exact (congrArg (fun p => p.2.1) h).symm
            · have h1 := congrArg (fun p => p.1.obj.status.artifact) h
              simp only [artifactDefer_status_artifact,
                artifactWriteState_status_artifact] at h1
              exact h1.symm

/-- C2 witness: a concrete failing copy leaves the reference unchanged. -/
theorem artifact_ref_changes_only_after_copy_witness :
    (reconcileArtifact { envA with copyFromPath := fun _ _ => Except.error "io" }
        stA).1.obj.status.artifact = stA.obj.status.artifact := by
  have h := (artifact_ref_changes_only_after_copy
    { envA with copyFromPath := fun _ _ => Except.error "io" } stA).1
  exact h _ _ _ rfl

/-- C8: on the write path of the artifact stage (the copy into storage
succeeded), the stage returns success with no error whatever the symlink
outcome; the published URL becomes the returned URL only when that URL is
non-empty, so a failing refresh that returns no URL leaves the published URL
exactly as it was before the symlink step. -/
theorem symlink_failure_nonfatal_url_unchanged (env : Env) (st : PassState)
    (stored : Artifact)
    (hup : (hasRevision env st.obj.status.artifact st.artifact.revision &&
        hasChecksum st.obj.status.artifact st.artifact.checksum) = false)
    (hmk : env.mkdirAll st.artifact = none)
    (hlk : env.lock st.artifact = none)
    (hcp : env.copyFromPath st.artifact st.chartRepo.path = Except.ok stored) :
    (reconcileArtifact env st).2.1 = Result.success ∧
    (reconcileArtifact env st).2.2 = none ∧
    (reconcileArtifact env st).1.obj.status.url =
      (if (env.symlink stored).1 != "" then (env.symlink stored).1
       else st.obj.status.url) ∧
    ((env.symlink stored).1 = "" →
      (reconcileArtifact env st).1.obj.status.url = st.obj.status.url) := by
  rw [reconcileArtifact_writeOk env st stored hup hmk hlk hcp]
  refine ⟨rfl, rfl, ?_, ?_⟩
  · rw [artifactDefer_status_url, artifactWriteState_status_url]
  · intro h0
    rw [artifactDefer_status_url, artifactWriteState_status_url, h0]
    simp

/-- C8 witness: the concrete failing symlink refresh after a successful
write. -/
theorem symlink_failure_nonfatal_url_unchanged_witness :
    (reconcileArtifact envSymlinkFail stA).2.1 = Result.success ∧
    (reconcileArtifact envSymlinkFail stA).2.2 = none ∧
    (reconcileArtifact envSymlinkFail stA).1.obj.status.url =
      (if (envSymlinkFail.symlink storedA).1 != "" then (envSymlinkFail.symlink storedA).1
       else stA.obj.status.url) ∧
    ((envSymlinkFail.symlink storedA).1 = "" →
      (reconcileArtifact envSymlinkFail stA).1.obj.status.url = stA.obj.status.url) :=
  symlink_failure_nonfatal_url_unchanged envSymlinkFail stA storedA rfl rfl rfl rfl

/-- C1: when the object already holds an artifact whose digest (or legacy
checksum after transformation) is in a recognized valid format, the fetch
succeeded, and the freshly fetched index digest under that same algorithm
equals it, the source stage reuses the stored artifact unchanged as the
candidate, clears FetchFailed, and returns success without loading the index
for validation and without producing a new revision; the following artifact
stage then succeeds without any storage write or cache population, leaving
the status artifact reference unchanged. -/
theorem source_short_circuit_spec (env : Env) (st : PassState)
    (cur : Artifact) (repo : ChartRepository)
    (hart : st.obj.status.artifact = some cur)
    (hfetch : fetchRepo env st.obj = Except.ok repo)
    (hvalid : env.digestValid (curDigestOf env cur) = true)
    (heq : repo.digestOf (digestAlgorithm (curDigestOf env cur)) = curDigestOf env cur) :
    reconcileSource env st =
      ({ st with
          artifact := cur
          chartRepo := repo
          obj := deleteCondition st.obj FetchFailedCondition }, Result.success, none) ∧
    getCondition (reconcileSource env st).1.obj FetchFailedCondition = none ∧
    (reconcileSource env st).1.trace = st.trace ∧
    (reconcileArtifact env (reconcileSource env st).1).2.1 = Result.success ∧
    (reconcileArtifact env (reconcileSource env st).1).2.2 = none ∧
    (reconcileArtifact env (reconcileSource env st).1).1.obj.status.artifact = some cur ∧
    ((reconcileArtifact env (reconcileSource env st).1).1.trace.filter isWriteEffect =
      st.trace.filter isWriteEffect) ∧
    ((reconcileArtifact env (reconcileSource env st).1).1.trace.filter isCacheSetEffect =
      st.trace.filter isCacheSetEffect) ∧
    ((reconcileArtifact env (reconcileSource env st).1).1.trace.filter isLoadIndexEffect =
      st.trace.filter isLoadIndexEffect) := by
  have hmain : reconcileSource env st =
      ({ st with
          artifact := cur
          chartRepo := repo
          obj := deleteCondition st.obj FetchFailedCondition }, Result.success, none) := by
    simp [reconcileSource, hfetch, hart, hvalid, heq]
  rw [hmain]
  have hup : (hasRevision env
        ({ st with
            artifact := cur
            chartRepo := repo
            obj := deleteCondition st.obj FetchFailedCondition } :
          PassState).obj.status.artifact cur.revision &&
      hasChecksum
        ({ st with
            artifact := cur
            chartRepo := repo
            obj := deleteCondition st.obj FetchFailedCondition } :
          PassState).obj.status.artifact cur.checksum) = true := by
    simp [hasRevision, hasChecksum, hart]
  rw [reconcileArtifact_upToDate env _ hup]
  refine ⟨rfl, ?_, rfl, rfl, rfl, ?_, ?_, ?_, ?_⟩
  · exact getCondition_deleteCondition_self st.obj FetchFailedCondition
  · simp [hart]
  · rw [artifactDefer_trace, artifactUpToDateState_trace]
    by_cases hc : env.cacheConfigured = true <;> simp [hc, isWriteEffect]
  · rw [artifactDefer_trace, artifactUpToDateState_trace]
    by_cases hc : env.cacheConfigured = true <;> simp [hc, isCacheSetEffect]
  · rw [artifactDefer_trace, artifactUpToDateState_trace]
    by_cases hc : env.cacheConfigured = true <;> simp [hc, isLoadIndexEffect]

/-- C1 witness: the short-circuit at the concrete object whose stored digest
matches the fetched index. -/
theorem source_short_circuit_spec_witness :
    reconcileSource envA stA =
      ({ stA with
          artifact := curArtifactA
          chartRepo := repoA
          obj := deleteCondition stA.obj FetchFailedCondition },
        Result.success, none) ∧
    getCondition (reconcileSource envA stA).1.obj FetchFailedCondition = none ∧
    (reconcileSource envA stA).1.trace = stA.trace ∧
    (reconcileArtifact envA (reconcileSource envA stA).1).2.1 = Result.success ∧
    (reconcileArtifact envA (reconcileSource envA stA).1).2.2 = none ∧
    (reconcileArtifact envA (reconcileSource envA stA).1).1.obj.status.artifact =
      some curArtifactA ∧
    ((reconcileArtifact envA (reconcileSource envA stA).1).1.trace.filter isWriteEffect =
      stA.trace.filter isWriteEffect) ∧
    ((reconcileArtifact envA (reconcileSource envA stA).1).1.trace.filter isCacheSetEffect =
      stA.trace.filter isCacheSetEffect) ∧
    ((reconcileArtifact envA (reconcileSource envA stA).1).1.trace.filter isLoadIndexEffect =
      stA.trace.filter isLoadIndexEffect) :=
  source_short_circuit_spec envA stA curArtifactA repoA rfl rfl rfl rfl

/-- C3 witness: a stage that requeues makes the loop return Requeue with no
error at once. -/
theorem pipeline_loop_spec_witness :
    reconcileLoopAux Result.empty [fun s => (s, Result.requeue, none)] stA =
      (stA, Result.requeue, none) :=
  pipeline_loop_spec.1 (fun s => (s, Result.requeue, none)) [] stA stA none
    Result.empty rfl

/-- C4 witness: a failing purge under deletion returns the error and keeps
the finalizer. -/
theorem gc_swallowed_steady_propagated_on_delete_witness :
    (reconcileDelete envPurgeFail objDeleting).err ≠ none ∧
    (reconcileDelete envPurgeFail objDeleting).obj = objDeleting :=
  ((gc_swallowed_steady_propagated_on_delete envPurgeFail stA objDeleting).2.1
    rfl).1 "disk gone" rfl

/-- C5 witness: an OCI-typed object with the finalizer requires migration. -/
theorem migrationPredicate_spec_witness :
    HelmRepositoryOCIRequireMigration (some (ClientObject.helmRepo objOCI)) = true :=
  (migrationPredicate_spec objOCI none).1.mpr ⟨rfl, Or.inl (by decide)⟩

/-- C7 witness: a successful pass with a changed checksum emits the
NewArtifact notification. -/
theorem notify_spec_witness :
    notify objA objB repoA Result.success none =
      [Effect.emitEvent "Normal" "NewArtifact" (notifyMessage repoA)] :=
  ((notify_spec objA objB repoA Result.success none).2 storedA rfl rfl rfl).1
    (by decide)

/-- C9 witness: the concrete empty-typed object passes the gate, reconciles
normally and is not purged. -/
theorem emptyType_treated_as_default_witness :
    eventFilterTypeGate (some (ClientObject.helmRepo objEmptyType)) = true ∧
    Reconcile envA objEmptyType = reconcile envA (stagesOf envA) objEmptyType ∧
    (garbageCollect envA objEmptyType).obj = objEmptyType := by
  have h := emptyType_treated_as_default
    (some (ClientObject.helmRepo objEmptyType)) objEmptyType envA
  exact ⟨h.1.mpr ⟨objEmptyType, rfl, Or.inr rfl⟩, h.2.1 rfl rfl rfl rfl,
    (h.2.2 rfl rfl).1⟩

/-- C10 witness: a nil object passes the Generic gate while failing the
Create gate. -/
theorem migrationPredicate_generic_passthrough_witness :
    HelmRepositoryOCIMigrationPredicate.Generic ⟨none⟩ = true ∧
    HelmRepositoryOCIMigrationPredicate.Create ⟨none⟩ = false := by
  have h := migrationPredicate_generic_passthrough ⟨none⟩ ⟨none⟩ ⟨none, none⟩ ⟨none⟩
  exact ⟨h.1, h.2.1.trans h.2.2.2.2⟩

end SourceController
